import Mathlib

/-!
Verification development for the goCertCenter client module.

The module under study has two components (types.go and handler.go):
a schema layer of typed request/result structures, and a dispatcher
method named do on apiRequest (handler.go:15-138) that shapes an HTTP
request from an operation name and a bitmask of parameter-location
flags, sends it, and decodes the JSON response.

This file gives a shallow embedding of the dispatcher.  Go machine
integers (int64) are embedded as Int; Go strings as String; the
dynamically-typed request field (interface value) as an inductive sum
of the concrete request structs that the dispatcher asserts; the Go
runtime panics that type assertions and nil dereferences cause are
explicit outcomes of the embedded functions.  The standard-library
collaborators (net/http transport, encoding/json decoding) are
parameters of the embedding: the round trip is an argument of type
RoundTrip and the response-body decoder an argument function, so that
theorems quantify over their behaviour.
-/

namespace CertCenter

/-- Parameter-location flag CC_PARAM_TYPE_QS (types.go:20): query string. -/
def CC_PARAM_TYPE_QS : Nat := 1

/-- Parameter-location flag CC_PARAM_TYPE_PATH (types.go:22): path segment. -/
def CC_PARAM_TYPE_PATH : Nat := 2

/-- Parameter-location flag CC_PARAM_TYPE_BODY (types.go:24): JSON body. -/
def CC_PARAM_TYPE_BODY : Nat := 4

/-- ResendApproverEmailRequest (types.go:309-311). -/
structure ResendApproverEmailRequest where
  CertCenterOrderID : Int
deriving DecidableEq

/-- DeleteOrderRequest (types.go:474-476). -/
structure DeleteOrderRequest where
  CertCenterOrderID : Int
deriving DecidableEq

/-- VulnerabilityAssessmentRequest (types.go:584-588). -/
structure VulnerabilityAssessmentRequest where
  CertCenterOrderID : Int
  ServiceStatus : String
  EmailNotificationLevel : String
deriving DecidableEq

/-- VulnerabilityAssessmentRescanRequest (types.go:597-599). -/
structure VulnerabilityAssessmentRescanRequest where
  CertCenterOrderID : Int
deriving DecidableEq

/-- UserData (types.go:602-621), the embedded field set of the /User
request structs.  Every field carries the JSON tag omitempty. -/
structure UserData where
  UsernameOrUserId : String
  FullName : String
  Email : String
  Username : String
  Password : String
  Roles : List String
  Mobile : String
  Timezone : String
  Locale : String
  SpecialProductAvailability : Bool
  Scope : String
  Active : Bool
  TwoFactorEnabled : Bool
  InsertDate : Int
  LastUpdateDate : Int
  LastPasswordChangeDate : Int
deriving DecidableEq

/-- GetUserRequest (types.go:658-660): embeds UserData. -/
structure GetUserRequest where
  UserData : UserData
deriving DecidableEq

/-- UpdateUserRequest (types.go:646-648): embeds UserData. -/
structure UpdateUserRequest where
  UserData : UserData
deriving DecidableEq

/-- DeleteUserRequest (types.go:670-672). -/
structure DeleteUserRequest where
  UsernameOrUserId : String
deriving DecidableEq

/-- PutApproverEmailRequest (types.go:298-301). -/
structure PutApproverEmailRequest where
  CertCenterOrderID : Int
  ApproverEmail : String
deriving DecidableEq

/-- GetOrderRequest (types.go:458-466): a numeric order id plus six
boolean include-flags whose url tags are the lowerCamel names used in
the query string. -/
structure GetOrderRequest where
  CertCenterOrderID : Int
  IncludeFulfillment : Bool
  IncludeOrderParameters : Bool
  IncludeBillingDetails : Bool
  IncludeContacts : Bool
  IncludeOrganizationInfos : Bool
  IncludeDCVStatus : Bool
deriving DecidableEq

/-- RevokeRequest (types.go:506-511): CertCenterOrderID plus two
optional (omitempty) string fields. -/
structure RevokeRequest where
  CertCenterOrderID : Int
  RevokeReason : String
  Certificate : String
deriving DecidableEq

/-- The dynamically-typed request stored in apiRequest.request
(types.go:39, an interface value).  One constructor per concrete
request struct that the dispatcher do type-asserts or that a claim
dispatches. -/
inductive ApiRequestVal where
  | resendApproverEmail (r : ResendApproverEmailRequest)
  | deleteOrder (r : DeleteOrderRequest)
  | vulnerabilityAssessment (r : VulnerabilityAssessmentRequest)
  | vulnerabilityAssessmentRescan (r : VulnerabilityAssessmentRescanRequest)
  | getUser (r : GetUserRequest)
  | updateUser (r : UpdateUserRequest)
  | deleteUser (r : DeleteUserRequest)
  | putApproverEmail (r : PutApproverEmailRequest)
  | getOrder (r : GetOrderRequest)
  | revoke (r : RevokeRequest)
deriving DecidableEq

/-- JSON string quoting as encoding/json produces it for the plain
strings exercised here (quote and backslash escaped; the rarer control
and HTML escapes of encoding/json are not needed by any claim input). -/
def jsonQuote (s : String) : String :=
  "\"" ++ String.join (s.toList.map (fun c =>
    if c = '"' then "\\\"" else if c = '\\' then "\\\\" else String.singleton c)) ++ "\""

/-- A JSON object from already-rendered member strings. -/
def jsonObject (fields : List String) : String :=
  "\x7b" ++ String.intercalate "," fields ++ "\x7d"

/-- Members contributed by an embedded UserData value under
encoding/json: declaration order, every field tagged omitempty, so a
field is omitted exactly when it holds its zero value. -/
def UserData.jsonFields (u : UserData) : List String :=
  (if u.UsernameOrUserId = "" then [] else ["\"UsernameOrUserId\":" ++ jsonQuote u.UsernameOrUserId]) ++
  (if u.FullName = "" then [] else ["\"FullName\":" ++ jsonQuote u.FullName]) ++
  (if u.Email = "" then [] else ["\"Email\":" ++ jsonQuote u.Email]) ++
  (if u.Username = "" then [] else ["\"Username\":" ++ jsonQuote u.Username]) ++
  (if u.Password = "" then [] else ["\"Password\":" ++ jsonQuote u.Password]) ++
  (if u.Roles.isEmpty then [] else
    ["\"Roles\":[" ++ String.intercalate "," (u.Roles.map jsonQuote) ++ "]"]) ++
  (if u.Mobile = "" then [] else ["\"Mobile\":" ++ jsonQuote u.Mobile]) ++
  (if u.Timezone = "" then [] else ["\"Timezone\":" ++ jsonQuote u.Timezone]) ++
  (if u.Locale = "" then [] else ["\"Locale\":" ++ jsonQuote u.Locale]) ++
  (if u.SpecialProductAvailability then ["\"SpecialProductAvailability\":true"] else []) ++
  (if u.Scope = "" then [] else ["\"Scope\":" ++ jsonQuote u.Scope]) ++
  (if u.Active then ["\"Active\":true"] else []) ++
  (if u.TwoFactorEnabled then ["\"TwoFactorEnabled\":true"] else []) ++
  (if u.InsertDate = 0 then [] else ["\"InsertDate\":" ++ toString u.InsertDate]) ++
  (if u.LastUpdateDate = 0 then [] else ["\"LastUpdateDate\":" ++ toString u.LastUpdateDate]) ++
  (if u.LastPasswordChangeDate = 0 then [] else
    ["\"LastPasswordChangeDate\":" ++ toString u.LastPasswordChangeDate])

/-- Rendering of a Go bool under encoding/json. -/
def jsonBool (b : Bool) : String := if b then "true" else "false"

/-- json.Marshal of the request value, following the struct tags in
types.go: untagged fields use the Go field name and are always
emitted; omitempty fields are dropped at their zero value; an embedded
UserData contributes its fields inline. -/
def jsonMarshal : ApiRequestVal → String
  | .resendApproverEmail r =>
      jsonObject ["\"CertCenterOrderID\":" ++ toString r.CertCenterOrderID]
  | .deleteOrder r =>
      jsonObject ["\"CertCenterOrderID\":" ++ toString r.CertCenterOrderID]
  | .vulnerabilityAssessment r =>
      jsonObject ["\"CertCenterOrderID\":" ++ toString r.CertCenterOrderID,
        "\"ServiceStatus\":" ++ jsonQuote r.ServiceStatus,
        "\"EmailNotificationLevel\":" ++ jsonQuote r.EmailNotificationLevel]
  | .vulnerabilityAssessmentRescan r =>
      jsonObject ["\"CertCenterOrderID\":" ++ toString r.CertCenterOrderID]
  | .getUser r => jsonObject r.UserData.jsonFields
  | .updateUser r => jsonObject r.UserData.jsonFields
  | .deleteUser r =>
      jsonObject ["\"UsernameOrUserId\":" ++ jsonQuote r.UsernameOrUserId]
  | .putApproverEmail r =>
      jsonObject ["\"CertCenterOrderID\":" ++ toString r.CertCenterOrderID,
        "\"ApproverEmail\":" ++ jsonQuote r.ApproverEmail]
  | .getOrder r =>
      jsonObject ["\"CertCenterOrderID\":" ++ toString r.CertCenterOrderID,
        "\"IncludeFulfillment\":" ++ jsonBool r.IncludeFulfillment,
        "\"IncludeOrderParameters\":" ++ jsonBool r.IncludeOrderParameters,
        "\"IncludeBillingDetails\":" ++ jsonBool r.IncludeBillingDetails,
        "\"IncludeContacts\":" ++ jsonBool r.IncludeContacts,
        "\"IncludeOrganizationInfos\":" ++ jsonBool r.IncludeOrganizationInfos,
        "\"IncludeDCVStatus\":" ++ jsonBool r.IncludeDCVStatus]
  | .revoke r =>
      jsonObject (["\"CertCenterOrderID\":" ++ toString r.CertCenterOrderID] ++
        (if r.RevokeReason = "" then [] else ["\"RevokeReason\":" ++ jsonQuote r.RevokeReason]) ++
        (if r.Certificate = "" then [] else ["\"Certificate\":" ++ jsonQuote r.Certificate]))

/-- Modelled from the spec: the query package
(github.com/certcenter/goCertCenter/query) is part of this repository
but its source is not under src/; the spec describes it only as
query-string encoding of structs (spec section 1) and pins down one
instance: the order-lookup operation with a numeric order identifier
and includeFulfillment=true produces GET
/rest/v1/Order/:id?includeFulfillment=true (spec section 8).
Accordingly the encoding of a GetOrderRequest emits each include-flag
that is set, under its url-tag name, in the sorted key order of
url.Values.Encode, and nothing else. -/
def GetOrderRequest.queryEncode (r : GetOrderRequest) : String :=
  String.intercalate "&"
    ((if r.IncludeBillingDetails then ["includeBillingDetails=true"] else []) ++
     (if r.IncludeContacts then ["includeContacts=true"] else []) ++
     (if r.IncludeDCVStatus then ["includeDCVStatus=true"] else []) ++
     (if r.IncludeFulfillment then ["includeFulfillment=true"] else []) ++
     (if r.IncludeOrderParameters then ["includeOrderParameters=true"] else []) ++
     (if r.IncludeOrganizationInfos then ["includeOrganizationInfos=true"] else []))

/-- Modelled from the spec: query.Values followed by Encode, as used
by the dispatcher.  Only the GetOrderRequest instance is pinned down
by the spec (see GetOrderRequest.queryEncode); no claim exercises the
encoding of any other request type, and those branches return the
empty query string. -/
def queryValues : ApiRequestVal → String
  | .getOrder r => r.queryEncode
  | _ => ""

/-- Outcome of the request-shaping phase of do (handler.go:15-101):
either a method, URL and optional body, or a Go interface-conversion
panic from a failed type assertion, carrying the asserted type. -/
inductive ShapeResult where
  | ok (httpMethod : String) (url : String) (postData : Option String)
  | panicAssert (assertedType : String)
deriving DecidableEq

/-- The request-shaping phase of do, translated from handler.go:15-99
and handler.go:101 (the method, URL and body handed to
http.NewRequest).  The query-string encoder qv and the JSON marshaller
jm are parameters (standard-library / sibling-package collaborators).
The Go type assertions req.request.(*T) become matches whose failing
branch is the interface-conversion panic.  The fmt.Println side effect
in the DeleteUser branch (handler.go:65) has no bearing on the built
request and is not modelled. -/
def shapeRequest (qv jm : ApiRequestVal → String)
    (request : ApiRequestVal) (apiMethod : String) (ParamType : List Nat) : ShapeResult :=
  let rawURL := "https://api.certcenter.com/rest/v1/"
  let url := rawURL ++ apiMethod
  match ParamType with
  | [] => .ok "GET" url none
  | paramType :: _ =>
    if paramType = CC_PARAM_TYPE_QS then
      .ok "GET" (url ++ "?" ++ qv request) none
    else if paramType = CC_PARAM_TYPE_BODY then
      .ok "POST" url (some (jm request))
    else if paramType = CC_PARAM_TYPE_PATH then
      if apiMethod = "ApproverEmail" then
        match request with
        | .resendApproverEmail r =>
            .ok "POST" (url ++ "/" ++ toString r.CertCenterOrderID) none
        | _ => .panicAssert "*certcenter.ResendApproverEmailRequest"
      else if apiMethod = "Order" then
        match request with
        | .deleteOrder r =>
            .ok "DELETE" (url ++ "/" ++ toString r.CertCenterOrderID) none
        | _ => .panicAssert "*certcenter.DeleteOrderRequest"
      else if apiMethod = "VulnerabilityAssessment" then
        match request with
        | .vulnerabilityAssessment r =>
            .ok "GET" (url ++ "/" ++ toString r.CertCenterOrderID) none
        | _ => .panicAssert "*certcenter.VulnerabilityAssessmentRequest"
      else if apiMethod = "User" then
        match request with
        | .getUser r =>
            .ok "GET" (url ++ "/" ++ r.UserData.UsernameOrUserId) none
        | _ => .panicAssert "*certcenter.GetUserRequest"
      else if apiMethod = "DeleteUser" then
        match request with
        | .deleteUser r =>
            .ok "DELETE" (rawURL ++ "User/" ++ r.UsernameOrUserId) none
        | _ => .panicAssert "*certcenter.DeleteUserRequest"
      else .ok "GET" url none
    else if paramType = CC_PARAM_TYPE_QS + CC_PARAM_TYPE_PATH then
      if apiMethod = "ApproverEmail" then
        match request with
        | .putApproverEmail r =>
            .ok "PUT" (url ++ "/" ++ toString r.CertCenterOrderID ++
              "?ApproverEmail=" ++ r.ApproverEmail) none
        | _ => .panicAssert "*certcenter.PutApproverEmailRequest"
      else if apiMethod = "Order" then
        match request with
        | .getOrder r =>
            .ok "GET" (url ++ ("/" ++ toString r.CertCenterOrderID ++ "?") ++ qv request) none
        | _ => .panicAssert "*certcenter.GetOrderRequest"
      else .ok "GET" url none
    else if paramType = CC_PARAM_TYPE_BODY + CC_PARAM_TYPE_PATH then
      if apiMethod = "Revoke" then
        match request with
        | .revoke r =>
            .ok "DELETE" (url ++ "/" ++ toString r.CertCenterOrderID) (some (jm request))
        | _ => .panicAssert "*certcenter.RevokeRequest"
      else if apiMethod = "User" then
        match request with
        | .updateUser r =>
            .ok "POST" (url ++ "/" ++ r.UserData.UsernameOrUserId)
              (some (jm (.updateUser ⟨{ r.UserData with UsernameOrUserId := "" }⟩)))
        | _ => .panicAssert "*certcenter.UpdateUserRequest"
      else .ok "GET" url (some (jm request))
    else .ok "GET" url none

/-- An HTTP response as the dispatcher consumes it: the status code,
the ContentLength header field of net/http (an int64 that the sender
declares; -1 when unknown), and the body that ioutil.ReadAll yields. -/
structure HttpResponse where
  StatusCode : Nat
  ContentLength : Int
  Body : String
deriving DecidableEq

/-- Outcome of the HTTP round trip client.Do (handler.go:109): either
a transport error with a nil response, or a response with a nil
error. -/
inductive RoundTrip where
  | failure (e : String)
  | success (resp : HttpResponse)
deriving DecidableEq

/-- The error values that do can return (handler.go:112-137). -/
inductive ApiError where
  | wiredLength
  | authFailed
  | statusGeneric (code : Nat)
  | decodeFailed (e : String)
deriving DecidableEq

/-- Outcome of a dispatcher call: a nil error (ok), an error value, or
a Go runtime panic. -/
inductive DoResult where
  | ok
  | err (e : ApiError)
  | panics (msg : String)
deriving DecidableEq

/-- The response-handling tail of do, translated from
handler.go:109-137.  The JSON decode json.Unmarshal(data, &req.result)
is the parameter unmar (Except.ok means the body decoded into the
result object).  Note the faithfully-kept slip at handler.go:109-110:
the error returned by client.Do is never examined, and the deferred
response.Body.Close() evaluates response.Body at once; when client.Do
fails its response is nil, so the call panics with a nil-pointer
dereference instead of returning the transport error. -/
def processResponse (unmar : String → Except String Unit) (rt : RoundTrip) : DoResult :=
  match rt with
  | .failure _ => .panics "runtime error: invalid memory address or nil pointer dereference"
  | .success r =>
    if 16777216 < r.ContentLength ∨ r.ContentLength = 0 then
      .err .wiredLength
    else
      let decoded : DoResult :=
        match unmar r.Body with
        | .ok _ => .ok
        | .error e => .err (.decodeFailed e)
      if r.StatusCode ≠ 200 then
        if r.StatusCode = 401 then .err .authFailed
        else if r.StatusCode = 417 then decoded
        else if r.StatusCode = 406 then decoded
        else .err (.statusGeneric r.StatusCode)
      else decoded

/-- The whole dispatcher method do (handler.go:15-138): shape the
request, perform the round trip through the network parameter net
(method, URL, body), and handle the response.  A failed type assertion
in the shaping phase is a Go interface-conversion panic. -/
def doRequest (qv jm : ApiRequestVal → String) (unmar : String → Except String Unit)
    (net : String → String → Option String → RoundTrip)
    (request : ApiRequestVal) (apiMethod : String) (ParamType : List Nat) : DoResult :=
  match shapeRequest qv jm request apiMethod ParamType with
  | .panicAssert t => .panics ("interface conversion: interface is not " ++ t)
  | .ok m u b => processResponse unmar (net m u b)

/-- C5: calling the order-lookup operation GetOrder (handler.go:289-296,
which dispatches operation name Order with QUERY_STRING and PATH) with
CertCenterOrderID id and IncludeFulfillment true (the other
include-flags unset) builds a GET whose URL is exactly
https://api.certcenter.com/rest/v1/Order/:id?includeFulfillment=true,
with no other query parameters and no body. -/
theorem getOrder_url_includeFulfillment (id : Int) :
    shapeRequest queryValues jsonMarshal
      (ApiRequestVal.getOrder ⟨id, true, false, false, false, false, false⟩)
      "Order" [CC_PARAM_TYPE_QS + CC_PARAM_TYPE_PATH]
    = ShapeResult.ok "GET"
        ("https://api.certcenter.com/rest/v1/Order/" ++ toString id ++ "?includeFulfillment=true")
        none := by
  simp only [shapeRequest, queryValues, GetOrderRequest.queryEncode,
    CC_PARAM_TYPE_QS, CC_PARAM_TYPE_PATH, CC_PARAM_TYPE_BODY]
  norm_num
  simp [← String.append_assoc]
  rw [String.append_assoc]
  rfl

/-- C7: the dispatcher routes operation name ApproverEmail by flags
(handler.go:48-52 and 68-73): with PATH alone it issues a POST to
/rest/v1/ApproverEmail/:CertCenterOrderID, and with QUERY_STRING
combined with PATH it issues a PUT to
/rest/v1/ApproverEmail/:CertCenterOrderID?ApproverEmail=:email. -/
theorem approverEmail_routing (qv jm : ApiRequestVal → String)
    (id id2 : Int) (email : String) :
    shapeRequest qv jm (ApiRequestVal.resendApproverEmail ⟨id⟩)
      "ApproverEmail" [CC_PARAM_TYPE_PATH]
    = ShapeResult.ok "POST"
        ("https://api.certcenter.com/rest/v1/ApproverEmail/" ++ toString id) none
    ∧ shapeRequest qv jm (ApiRequestVal.putApproverEmail ⟨id2, email⟩)
      "ApproverEmail" [CC_PARAM_TYPE_QS + CC_PARAM_TYPE_PATH]
    = ShapeResult.ok "PUT"
        ("https://api.certcenter.com/rest/v1/ApproverEmail/" ++ toString id2 ++
          "?ApproverEmail=" ++ email) none := by
  constructor <;>
    · simp only [shapeRequest, CC_PARAM_TYPE_QS, CC_PARAM_TYPE_PATH, CC_PARAM_TYPE_BODY]
      norm_num
      simp [← String.append_assoc]

/-- C8: a dispatch of operation name DeleteUser with the PATH flag
(handler.go:62-67) is remapped to method DELETE on the User path: the
URL is https://api.certcenter.com/rest/v1/User/:UsernameOrUserId. -/
theorem deleteUser_remap (qv jm : ApiRequestVal → String) (u : String) :
    shapeRequest qv jm (ApiRequestVal.deleteUser ⟨u⟩) "DeleteUser" [CC_PARAM_TYPE_PATH]
    = ShapeResult.ok "DELETE" ("https://api.certcenter.com/rest/v1/User/" ++ u) none := by
  simp only [shapeRequest, CC_PARAM_TYPE_QS, CC_PARAM_TYPE_PATH, CC_PARAM_TYPE_BODY]
  norm_num
  simp [← String.append_assoc]

/-- C9 (refuted, code bug): VulnerabilityAssessmentRescan
(handler.go:382-389) stores a VulnerabilityAssessmentRescanRequest and
dispatches operation name VulnerabilityAssessment with the PATH flag,
but the dispatcher (handler.go:57-59) type-asserts
*certcenter.VulnerabilityAssessmentRequest there; the concrete type
does not match the asserted one, so every such call panics with an
interface-conversion error instead of issuing a request. -/
theorem vulnerabilityAssessmentRescan_assertion_fails
    (qv jm : ApiRequestVal → String) (unmar : String → Except String Unit)
    (net : String → String → Option String → RoundTrip)
    (r : VulnerabilityAssessmentRescanRequest) :
    doRequest qv jm unmar net (ApiRequestVal.vulnerabilityAssessmentRescan r)
      "VulnerabilityAssessment" [CC_PARAM_TYPE_PATH]
    = DoResult.panics
        "interface conversion: interface is not *certcenter.VulnerabilityAssessmentRequest" := rfl

/-- C6 (counterexample): dispatching Revoke (BODY and PATH flags,
handler.go:83-87 and 93-97) with CertCenterOrderID 123 substitutes the
order id into the path and still serializes it into the JSON body: the
path field is not cleared before serialization, so the value appears
in both places, contradicting the claim that every path-substituted
field is cleared. -/
theorem revoke_body_keeps_path_field :
    shapeRequest queryValues jsonMarshal (ApiRequestVal.revoke ⟨123, "", ""⟩)
      "Revoke" [CC_PARAM_TYPE_BODY + CC_PARAM_TYPE_PATH]
    = ShapeResult.ok "DELETE" "https://api.certcenter.com/rest/v1/Revoke/123"
        (some "\x7b\"CertCenterOrderID\":123\x7d") := by decide

/-- C6 (amended): in the BODY-and-PATH case only the User branch
(handler.go:88-92) clears its path-substitution field
UsernameOrUserId before the request is serialized; the Revoke branch
(handler.go:84-87) serializes the request unchanged, so
CertCenterOrderID reaches the marshaller and duplicates the path
value. -/
theorem body_path_clearing (qv jm : ApiRequestVal → String)
    (u : UpdateUserRequest) (r : RevokeRequest) :
    shapeRequest qv jm (ApiRequestVal.updateUser u) "User"
      [CC_PARAM_TYPE_BODY + CC_PARAM_TYPE_PATH]
    = ShapeResult.ok "POST"
        ("https://api.certcenter.com/rest/v1/User/" ++ u.UserData.UsernameOrUserId)
        (some (jm (ApiRequestVal.updateUser ⟨{ u.UserData with UsernameOrUserId := "" }⟩)))
    ∧ shapeRequest qv jm (ApiRequestVal.revoke r) "Revoke"
      [CC_PARAM_TYPE_BODY + CC_PARAM_TYPE_PATH]
    = ShapeResult.ok "DELETE"
        ("https://api.certcenter.com/rest/v1/Revoke/" ++ toString r.CertCenterOrderID)
        (some (jm (ApiRequestVal.revoke r))) := by
  constructor <;>
    · simp only [shapeRequest, CC_PARAM_TYPE_QS, CC_PARAM_TYPE_PATH, CC_PARAM_TYPE_BODY]
      norm_num
      simp [← String.append_assoc]

/-- C10 (counterexample): the BODY-and-PATH case (handler.go:83-98)
serializes the request into the body even when the operation name
matches none of its special cases: dispatching name Foo with BODY and
PATH produces a GET to the bare endpoint URL but with the
JSON-serialized request attached as the body, contradicting the claim
that such calls carry no body. -/
theorem unmatched_body_path_has_body :
    shapeRequest queryValues jsonMarshal (ApiRequestVal.revoke ⟨1, "", ""⟩)
      "Foo" [CC_PARAM_TYPE_BODY + CC_PARAM_TYPE_PATH]
    = ShapeResult.ok "GET" "https://api.certcenter.com/rest/v1/Foo"
        (some "\x7b\"CertCenterOrderID\":1\x7d") := by decide

/-- C10 (amended): a dispatcher call whose flag combination matches no
case of the switch (handler.go:34-98) issues a plain GET to the bare
endpoint URL with no query string and no body, and so does a PATH or
QUERY_STRING-and-PATH call whose operation name matches none of that
case's special cases; but a BODY-and-PATH call with an unmatched name,
while also a GET to the bare URL, still carries the JSON-serialized
request as its body (handler.go:93-97). -/
theorem fallthrough_shapes (qv jm : ApiRequestVal → String)
    (request : ApiRequestVal) (apiMethod : String) :
    (∀ p : Nat, p ≠ 1 → p ≠ 2 → p ≠ 3 → p ≠ 4 → p ≠ 6 →
      shapeRequest qv jm request apiMethod [p]
      = ShapeResult.ok "GET" ("https://api.certcenter.com/rest/v1/" ++ apiMethod) none)
    ∧ (apiMethod ≠ "ApproverEmail" → apiMethod ≠ "Order" →
        apiMethod ≠ "VulnerabilityAssessment" → apiMethod ≠ "User" →
        apiMethod ≠ "DeleteUser" →
      shapeRequest qv jm request apiMethod [CC_PARAM_TYPE_PATH]
      = ShapeResult.ok "GET" ("https://api.certcenter.com/rest/v1/" ++ apiMethod) none)
    ∧ (apiMethod ≠ "ApproverEmail" → apiMethod ≠ "Order" →
      shapeRequest qv jm request apiMethod [CC_PARAM_TYPE_QS + CC_PARAM_TYPE_PATH]
      = ShapeResult.ok "GET" ("https://api.certcenter.com/rest/v1/" ++ apiMethod) none)
    ∧ (apiMethod ≠ "Revoke" → apiMethod ≠ "User" →
      shapeRequest qv jm request apiMethod [CC_PARAM_TYPE_BODY + CC_PARAM_TYPE_PATH]
      = ShapeResult.ok "GET" ("https://api.certcenter.com/rest/v1/" ++ apiMethod)
          (some (jm request))) := by
  refine ⟨?_, ?_, ?_, ?_⟩ <;> intros <;>
    simp [shapeRequest, CC_PARAM_TYPE_QS, CC_PARAM_TYPE_PATH, CC_PARAM_TYPE_BODY, *]

/-- C10 (witness): the amended statement instantiated at the unhandled
combination QUERY_STRING-and-BODY (flag value 5) and at the operation
name Foo, which matches no special case of the PATH,
QUERY_STRING-and-PATH and BODY-and-PATH cases. -/
theorem fallthrough_shapes_witness :
    shapeRequest queryValues jsonMarshal (ApiRequestVal.deleteOrder ⟨7⟩) "Foo" [5]
      = ShapeResult.ok "GET" ("https://api.certcenter.com/rest/v1/" ++ "Foo") none
    ∧ shapeRequest queryValues jsonMarshal (ApiRequestVal.deleteOrder ⟨7⟩) "Foo"
        [CC_PARAM_TYPE_PATH]
      = ShapeResult.ok "GET" ("https://api.certcenter.com/rest/v1/" ++ "Foo") none
    ∧ shapeRequest queryValues jsonMarshal (ApiRequestVal.deleteOrder ⟨7⟩) "Foo"
        [CC_PARAM_TYPE_QS + CC_PARAM_TYPE_PATH]
      = ShapeResult.ok "GET" ("https://api.certcenter.com/rest/v1/" ++ "Foo") none
    ∧ shapeRequest queryValues jsonMarshal (ApiRequestVal.deleteOrder ⟨7⟩) "Foo"
        [CC_PARAM_TYPE_BODY + CC_PARAM_TYPE_PATH]
      = ShapeResult.ok "GET" ("https://api.certcenter.com/rest/v1/" ++ "Foo")
          (some (jsonMarshal (ApiRequestVal.deleteOrder ⟨7⟩))) :=
  ⟨(fallthrough_shapes queryValues jsonMarshal _ _).1 5
      (by decide) (by decide) (by decide) (by decide) (by decide),
   (fallthrough_shapes queryValues jsonMarshal _ _).2.1
      (by decide) (by decide) (by decide) (by decide) (by decide),
   (fallthrough_shapes queryValues jsonMarshal _ _).2.2.1 (by decide) (by decide),
   (fallthrough_shapes queryValues jsonMarshal _ _).2.2.2 (by decide) (by decide)⟩

/-- C1 (refuted, code bug): when the HTTP round trip client.Do fails
with a transport error, do does not return that error: the error is
never examined (handler.go:109 has no error check) and the deferred
response.Body.Close() (handler.go:110) dereferences the nil response,
so the call panics with a nil-pointer dereference, whatever the
transport error and whatever the JSON decoder. -/
theorem transport_error_panics (unmar : String → Except String Unit) (e : String) :
    processResponse unmar (RoundTrip.failure e)
    = DoResult.panics "runtime error: invalid memory address or nil pointer dereference" := rfl

/-- C2: for a response whose declared content length matches its body,
a body longer than 16 MiB (2^24 bytes) or of zero length makes do
return the invalid-length error (handler.go:112-114), and this holds
for every JSON decoder, so decoding is never attempted for such a
response. -/
theorem oversized_or_empty_body_rejected (unmar : String → Except String Unit)
    (r : HttpResponse) (hcl : r.ContentLength = (r.Body.length : Int))
    (hbad : 16777216 < (r.Body.length : Int) ∨ r.Body.length = 0) :
    processResponse unmar (RoundTrip.success r) = DoResult.err ApiError.wiredLength := by
  have hcond : 16777216 < r.ContentLength ∨ r.ContentLength = 0 := by
    rw [hcl]
    rcases hbad with h | h
    · exact Or.inl (by omega)
    · exact Or.inr (by omega)
  simp [processResponse, hcond]

/-- C2 (witness): a zero-length response body is rejected. -/
theorem oversized_or_empty_body_rejected_witness :
    (⟨200, 0, ""⟩ : HttpResponse).ContentLength
      = ((⟨200, 0, ""⟩ : HttpResponse).Body.length : Int)
    ∧ processResponse (fun _ => Except.ok ()) (RoundTrip.success ⟨200, 0, ""⟩)
      = DoResult.err ApiError.wiredLength :=
  ⟨rfl, oversized_or_empty_body_rejected _ _ rfl (Or.inr rfl)⟩

/-- C3 (counterexample): a 417 response with an empty body makes do
return the invalid-length error (handler.go:112-114 fires before the
status switch), so it is not true that a 406 or 417 response yields no
error even when the body is empty. -/
theorem status417_empty_body_errors :
    processResponse (fun _ => Except.ok ()) (RoundTrip.success ⟨417, 0, ""⟩)
      = DoResult.err ApiError.wiredLength
    ∧ processResponse (fun _ => Except.ok ()) (RoundTrip.success ⟨417, 0, ""⟩)
      ≠ DoResult.ok := ⟨rfl, by decide⟩

/-- C3 (amended): a 406 or 417 response yields no error provided its
content length passes the validity check (neither zero nor above 16
MiB) and its body decodes as JSON: the status switch
(handler.go:122-131) raises nothing for 406 and 417 and the body is
decoded as on the 200 path; an empty body, however, is rejected by the
length check before the status is consulted. -/
theorem status406_417_no_error (unmar : String → Except String Unit)
    (r : HttpResponse) (hst : r.StatusCode = 406 ∨ r.StatusCode = 417)
    (h0 : r.ContentLength ≠ 0) (hle : r.ContentLength ≤ 16777216)
    (hdec : unmar r.Body = Except.ok ()) :
    processResponse unmar (RoundTrip.success r) = DoResult.ok := by
  have hcond : ¬(16777216 < r.ContentLength ∨ r.ContentLength = 0) := by
    push_neg
    exact ⟨not_lt.mp (by omega), h0⟩
  rcases hst with h | h <;> simp [processResponse, hcond, h, hdec]

/-- C3 (amended, witness): a 417 response with a two-byte body that
decodes successfully yields no error. -/
theorem status406_417_no_error_witness :
    (⟨417, 2, "ab"⟩ : HttpResponse).ContentLength ≠ 0
    ∧ processResponse (fun _ => Except.ok ()) (RoundTrip.success ⟨417, 2, "ab"⟩)
      = DoResult.ok :=
  ⟨by decide, status406_417_no_error _ _ (Or.inr rfl) (by decide) (by decide) rfl⟩

/-- C4 (counterexample): a 401 response with an empty body makes do
return the invalid-length error, not the authorization-failure error:
the length check (handler.go:112-114) fires before the status switch,
so it is not true that every 401 response yields an
authorization-failure error. -/
theorem status401_empty_body_not_auth_error :
    processResponse (fun _ => Except.ok ()) (RoundTrip.success ⟨401, 0, ""⟩)
      = DoResult.err ApiError.wiredLength
    ∧ processResponse (fun _ => Except.ok ()) (RoundTrip.success ⟨401, 0, ""⟩)
      ≠ DoResult.err ApiError.authFailed := ⟨rfl, by decide⟩

/-- C4 (amended): a 401 response whose content length passes the
validity check yields the authorization-failure error
(handler.go:126-127), whatever the decoder, so the body is never
decoded into the result; and a 401 response never yields a nil error,
whatever its content length. -/
theorem status401_auth_failure (unmar : String → Except String Unit)
    (r : HttpResponse) (hst : r.StatusCode = 401) :
    (r.ContentLength ≠ 0 → r.ContentLength ≤ 16777216 →
      processResponse unmar (RoundTrip.success r) = DoResult.err ApiError.authFailed)
    ∧ processResponse unmar (RoundTrip.success r) ≠ DoResult.ok := by
  constructor
  · intro h0 hle
    have hcond : ¬(16777216 < r.ContentLength ∨ r.ContentLength = 0) := by
      push_neg
      exact ⟨not_lt.mp (by omega), h0⟩
    simp [processResponse, hcond, hst]
  · by_cases hcond : 16777216 < r.ContentLength ∨ r.ContentLength = 0
    · simp [processResponse, hcond]
    · simp [processResponse, hcond, hst]

/-- C4 (amended, witness): a 401 response with a five-byte body yields
the authorization-failure error and no nil error. -/
theorem status401_auth_failure_witness :
    (⟨401, 5, "nope!"⟩ : HttpResponse).StatusCode = 401
    ∧ processResponse (fun _ => Except.ok ()) (RoundTrip.success ⟨401, 5, "nope!"⟩)
      = DoResult.err ApiError.authFailed :=
  ⟨rfl, (status401_auth_failure _ _ rfl).1 (by decide) (by decide)⟩

end CertCenter
